import Mathlib

/-!
Verification of the lattice route of `covalent_ui`
(`covalent_ui/api/v1/routes/end_points/lattice_route.py`) against its
natural-language specification.

The two route handlers `get_lattice_details` and `get_lattice_files` are
shallowly embedded as pure Lean functions.  The relational store and the
filesystem are passed in explicitly; the SQLAlchemy session scope of the
Python `with Session(engine) as session:` block and every file access are
recorded in an explicit event trace so that resource-lifecycle and
frame-effect claims can be stated.  Raised `HTTPException`s and file
errors become `Except` errors.
-/

namespace Covalent

/-- An opaque Python value, as produced by unpickling an artifact file.
Only the structure needed by the claims is modelled. -/
inductive PyObj : Type where
  | pynone : PyObj
  | pybool : Bool → PyObj
  | pyint : Int → PyObj
  | pystr : String → PyObj
deriving DecidableEq, Repr

/-- Python `str()` rendering of a value, used by the `result` branch of
`get_lattice_files`, which returns `str(response)`. -/
def pyStr : PyObj → String
  | .pynone => "None"
  | .pybool b => if b then "True" else "False"
  | .pyint n => toString n
  | .pystr s => s

/-- Content of one file on disk: either raw text or a pickled object. -/
inductive FileContent : Type where
  | text : String → FileContent
  | obj : PyObj → FileContent
deriving DecidableEq, Repr

/-- The filesystem, as a partial map from absolute path to content. -/
def FileSystem : Type := String → Option FileContent

/-- Failure modes of the artifact file reader (spec section 4.3):
the named file is absent, or its bytes are invalid for the codec. -/
inductive FileError : Type where
  | missingFile : FileError
  | decodeError : FileError
deriving DecidableEq, Repr

/-- One entry of the structured error detail list carried by an
`HTTPException` (the dict literal of `lattice_route.py`). -/
structure ErrorDetail : Type where
  loc : List String
  msg : String
  type : Option String
deriving DecidableEq, Repr

/-- The `fastapi.HTTPException` raised by the route handlers. -/
structure HTTPExceptionModel : Type where
  status_code : Nat
  detail : List ErrorDetail
deriving DecidableEq, Repr

/-- Anything a route handler can fail with: a raised `HTTPException`,
or a file error propagating out of the `FileHandler`. -/
inductive RouteError : Type where
  | http : HTTPExceptionModel → RouteError
  | file : FileError → RouteError
deriving DecidableEq, Repr

/-- Observable events of one request: the session scope entered and left
by the `with Session(engine)` block, and each attempted file read. -/
inductive Event : Type where
  | sessionAcquire : Event
  | sessionRelease : Event
  | readTextEv : String → Event
  | readObjectEv : String → Event
deriving DecidableEq, Repr

/-- Whether an event is a file read. -/
def Event.isRead : Event → Bool
  | .readTextEv _ => true
  | .readObjectEv _ => true
  | _ => false

/-- Whether an event belongs to the session lifecycle. -/
def Event.isSession : Event → Bool
  | .sessionAcquire => true
  | .sessionRelease => true
  | _ => false

/-- The file reads of a trace, in order. -/
def readsOf (t : List Event) : List Event := t.filter Event.isRead

/-- The row returned by `Lattices.get_lattices_id`: the summary record of
one dispatch, with the field names of the Python data layer. -/
structure LatticeRecord : Type where
  dispatch_id : String
  status : String
  total_electrons : Nat
  total_electrons_completed : Nat
  start_time : Option String
  end_time : Option String
  directory : String
  runtime : Int
deriving DecidableEq, Repr

/-- The dict returned by `Lattices.get_lattices_id_storage_file`: storage
directory, per-kind filenames, and the executor names.  Keys follow the
subscripts used in `get_lattice_files`. -/
structure LatticeStorageRecord : Type where
  directory : String
  results_filename : String
  inputs_filename : String
  function_string_filename : String
  executor : String
  executor_data_filename : String
  workflow_executor : String
  workflow_executor_data_filename : String
  error_filename : String
  function_filename : String
  transport_graph_filename : String
deriving DecidableEq, Repr

/-- Modelled from the spec: the data layer `Lattices` (file
`covalent_ui/api/v1/data_layer/lattice_dal.py` is not part of the shown
sources).  Sections 4.1 and 4.2: each repository keys on the dispatch
identifier and signals absence with a distinguishable `NotFound`
(here `none`). -/
structure Store : Type where
  summaries : String → Option LatticeRecord
  storageRecords : String → Option LatticeStorageRecord

/-- The `LatticeDetailResponse` pydantic model built on success of
`get_lattice_details`. -/
structure LatticeDetailResponse : Type where
  dispatch_id : String
  status : String
  total_electrons : Nat
  total_electrons_completed : Nat
  started_at : Option String
  ended_at : Option String
  directory : String
  runtime : Int
deriving DecidableEq, Repr

/-- The `LatticeFileResponse` pydantic model: a single optional data
field.  Text contents are injected through `PyObj.pystr`. -/
structure LatticeFileResponse : Type where
  data : Option PyObj
deriving DecidableEq, Repr

/-- The `LatticeExecutorResponse` pydantic model. -/
structure LatticeExecutorResponse : Type where
  executor_name : String
  executor_details : PyObj
deriving DecidableEq, Repr

/-- The `LatticeWorkflowExecutorResponse` pydantic model. -/
structure LatticeWorkflowExecutorResponse : Type where
  workflow_executor_name : String
  workflow_executor_details : PyObj
deriving DecidableEq, Repr

/-- The union of response shapes `get_lattice_files` can return. -/
inductive LatticeFilesResult : Type where
  | fileResp : LatticeFileResponse → LatticeFilesResult
  | executorResp : LatticeExecutorResponse → LatticeFilesResult
  | workflowExecutorResp : LatticeWorkflowExecutorResponse → LatticeFilesResult
deriving DecidableEq, Repr

/-- The `FileHandler` of `covalent_ui/api/v1/utils/file_handle.py`:
holds the storage directory against which filenames are resolved. -/
structure FileHandler : Type where
  directory : String

/-- Path resolution: modelled from the spec (section 3), filenames are
resolved relative to the record directory. -/
def FileHandler.resolve (h : FileHandler) (fname : String) : String :=
  h.directory ++ "/" ++ fname

/-- Modelled from the spec: `FileHandler.read_from_text`
(`file_handle.py` is not part of the shown sources).  Section 4.3:
`readText(path) → string | MissingFile | DecodeError`; the attempted
read is recorded in the trace. -/
def FileHandler.read_from_text (h : FileHandler) (fs : FileSystem)
    (fname : String) : Except FileError String × List Event :=
  match fs (h.resolve fname) with
  | none => (.error .missingFile, [Event.readTextEv (h.resolve fname)])
  | some (.text s) => (.ok s, [Event.readTextEv (h.resolve fname)])
  | some (.obj _) => (.error .decodeError, [Event.readTextEv (h.resolve fname)])

/-- Modelled from the spec: `FileHandler.read_from_pickle`
(`file_handle.py` is not part of the shown sources).  Section 4.3:
`readObject(path) → DecodedValue | MissingFile | DecodeError`; the
attempted read is recorded in the trace. -/
def FileHandler.read_from_pickle (h : FileHandler) (fs : FileSystem)
    (fname : String) : Except FileError PyObj × List Event :=
  match fs (h.resolve fname) with
  | none => (.error .missingFile, [Event.readObjectEv (h.resolve fname)])
  | some (.obj v) => (.ok v, [Event.readObjectEv (h.resolve fname)])
  | some (.text _) => (.error .decodeError, [Event.readObjectEv (h.resolve fname)])

/-- Propagate a reader outcome into a route outcome: on success continue
with the read value, on failure let the file error escape the handler
(the Python route catches nothing around the `FileHandler` calls). -/
def bindRead {α β : Type} (r : Except FileError α × List Event)
    (k : α → Except RouteError β) : Except RouteError β × List Event :=
  match r with
  | (.ok a, evs) => (k a, evs)
  | (.error e, evs) => (.error (.file e), evs)

/-- The `with Session(engine) as session:` block: the session is acquired
on entry and released on every exit path, around whatever the body did. -/
def withSession {α : Type} (body : α × List Event) : α × List Event :=
  (body.1, Event.sessionAcquire :: body.2 ++ [Event.sessionRelease])

/-- The error raised when the dispatch id is unknown (both handlers
build this identical `HTTPException`). -/
def dispatchNotFound (dispatch_id : String) : HTTPExceptionModel :=
  { status_code := 400,
    detail := [{ loc := ["path", "dispatch_id"],
                 msg := "Dispatch ID " ++ dispatch_id ++ " does not exist",
                 type := none }] }

/-- Body of the `with` block of `get_lattice_details`. -/
def get_lattice_details_body (store : Store) (dispatch_id : String) :
    Except RouteError LatticeDetailResponse × List Event :=
  match store.summaries dispatch_id with
  | some data =>
      (.ok { dispatch_id := data.dispatch_id
             status := data.status
             total_electrons := data.total_electrons
             total_electrons_completed := data.total_electrons_completed
             started_at := data.start_time
             ended_at := data.end_time
             directory := data.directory
             runtime := data.runtime }, [])
  | none => (.error (.http (dispatchNotFound dispatch_id)), [])

/-- Route `GET /{dispatch_id}`: summary lookup inside a session scope. -/
def get_lattice_details (store : Store) (dispatch_id : String) :
    Except RouteError LatticeDetailResponse × List Event :=
  withSession (get_lattice_details_body store dispatch_id)

/-- Body of the `with` block of `get_lattice_files`: the dispatch chain
over the artifact kind, transcribed branch by branch from the source. -/
def get_lattice_files_body (store : Store) (fs : FileSystem)
    (dispatch_id name : String) :
    Except RouteError LatticeFilesResult × List Event :=
  match store.storageRecords dispatch_id with
  | some lattice_data =>
      let handler : FileHandler := { directory := lattice_data.directory }
      if name = "result" then
        bindRead (handler.read_from_pickle fs lattice_data.results_filename)
          fun response => .ok (.fileResp { data := some (.pystr (pyStr response)) })
      else if name = "inputs" then
        bindRead (handler.read_from_pickle fs lattice_data.inputs_filename)
          fun response => .ok (.fileResp { data := some response })
      else if name = "function_string" then
        bindRead (handler.read_from_text fs lattice_data.function_string_filename)
          fun response => .ok (.fileResp { data := some (.pystr response) })
      else if name = "executor" then
        bindRead (handler.read_from_pickle fs lattice_data.executor_data_filename)
          fun executor_data => .ok (.executorResp
            { executor_name := lattice_data.executor
              executor_details := executor_data })
      else if name = "workflow_executor" then
        bindRead (handler.read_from_pickle fs lattice_data.workflow_executor_data_filename)
          fun executor_data => .ok (.workflowExecutorResp
            { workflow_executor_name := lattice_data.workflow_executor
              workflow_executor_details := executor_data })
      else if name = "error" then
        bindRead (handler.read_from_text fs lattice_data.error_filename)
          fun response => .ok (.fileResp { data := some (.pystr response) })
      else if name = "function" then
        bindRead (handler.read_from_pickle fs lattice_data.function_filename)
          fun response => .ok (.fileResp { data := some response })
      else if name = "transport_graph" then
        bindRead (handler.read_from_pickle fs lattice_data.transport_graph_filename)
          fun response => .ok (.fileResp { data := some response })
      else
        (.ok (.fileResp { data := none }), [])
  | none => (.error (.http (dispatchNotFound dispatch_id)), [])

/-- Route `GET /{dispatch_id}/details/{name}`: artifact retrieval inside
a session scope. -/
def get_lattice_files (store : Store) (fs : FileSystem)
    (dispatch_id name : String) :
    Except RouteError LatticeFilesResult × List Event :=
  withSession (get_lattice_files_body store fs dispatch_id name)

/-- The artifact kinds recognized by the dispatch chain. -/
def recognizedKinds : List String :=
  ["result", "inputs", "function_string", "executor",
   "workflow_executor", "error", "function", "transport_graph"]

/-! ### Concrete fixtures for witnesses and counterexamples -/

/-- A summary record for dispatch `D1`. -/
def sampleSummary : LatticeRecord :=
  { dispatch_id := "D1"
    status := "COMPLETED"
    total_electrons := 5
    total_electrons_completed := 5
    start_time := some "2022-01-01T00:00:00"
    end_time := some "2022-01-01T00:01:00"
    directory := "/store/D1"
    runtime := 60 }

/-- A storage record for dispatch `D1`. -/
def sampleRecord : LatticeStorageRecord :=
  { directory := "/store/D1"
    results_filename := "result.pkl"
    inputs_filename := "inputs.pkl"
    function_string_filename := "function_string.txt"
    executor := "dask"
    executor_data_filename := "executor_data.pkl"
    workflow_executor := "local"
    workflow_executor_data_filename := "workflow_executor_data.pkl"
    error_filename := "error.log"
    function_filename := "function.pkl"
    transport_graph_filename := "transport_graph.pkl" }

/-- A filesystem holding all eight artifact files of `D1`. -/
def sampleFS : FileSystem := fun p =>
  if p = "/store/D1/result.pkl" then some (.obj (.pyint 5))
  else if p = "/store/D1/inputs.pkl" then some (.obj (.pystr "args"))
  else if p = "/store/D1/function_string.txt" then some (.text "def f(): pass")
  else if p = "/store/D1/executor_data.pkl" then some (.obj (.pystr "exec-cfg"))
  else if p = "/store/D1/workflow_executor_data.pkl" then some (.obj (.pystr "wexec-cfg"))
  else if p = "/store/D1/error.log" then some (.text "traceback")
  else if p = "/store/D1/function.pkl" then some (.obj (.pystr "fn"))
  else if p = "/store/D1/transport_graph.pkl" then some (.obj (.pystr "tg"))
  else none

/-- A store holding exactly dispatch `D1`. -/
def sampleStore : Store :=
  { summaries := fun i => if i = "D1" then some sampleSummary else none
    storageRecords := fun i => if i = "D1" then some sampleRecord else none }

/-- A filesystem with no files at all. -/
def emptyFS : FileSystem := fun _ => none

/-! ### Helper lemmas -/

/-- A pickle read always records exactly one object-read event on the
resolved path, whatever its outcome. -/
theorem read_from_pickle_trace (h : FileHandler) (fs : FileSystem) (f : String) :
    (h.read_from_pickle fs f).2 = [Event.readObjectEv (h.resolve f)] := by
  unfold FileHandler.read_from_pickle
  cases fs (h.resolve f) with
  | none => rfl
  | some c => cases c <;> rfl

/-- A text read always records exactly one text-read event on the
resolved path, whatever its outcome. -/
theorem read_from_text_trace (h : FileHandler) (fs : FileSystem) (f : String) :
    (h.read_from_text fs f).2 = [Event.readTextEv (h.resolve f)] := by
  unfold FileHandler.read_from_text
  cases fs (h.resolve f) with
  | none => rfl
  | some c => cases c <;> rfl

/-- `bindRead` keeps the reader trace unchanged. -/
theorem bindRead_trace {α β : Type} (r : Except FileError α × List Event)
    (k : α → Except RouteError β) : (bindRead r k).2 = r.2 := by
  obtain ⟨res, evs⟩ := r
  cases res <;> rfl

/-! ### Claim theorems -/

/-- C4: for every dispatch identifier present in the summary store,
`get_lattice_details` returns a payload whose fields (dispatch_id,
status, total_electrons, total_electrons_completed, started_at,
ended_at, directory, runtime) each equal the corresponding field of the
stored record (`started_at`/`ended_at` correspond to the record's
`start_time`/`end_time`), with no field altered or omitted. -/
theorem getSummary_found_copies_fields (store : Store) (dispatch_id : String)
    (data : LatticeRecord) (h : store.summaries dispatch_id = some data) :
    ∃ resp : LatticeDetailResponse,
      (get_lattice_details store dispatch_id).1 = .ok resp ∧
      resp.dispatch_id = data.dispatch_id ∧
      resp.status = data.status ∧
      resp.total_electrons = data.total_electrons ∧
      resp.total_electrons_completed = data.total_electrons_completed ∧
      resp.started_at = data.start_time ∧
      resp.ended_at = data.end_time ∧
      resp.directory = data.directory ∧
      resp.runtime = data.runtime := by
  refine ⟨{ dispatch_id := data.dispatch_id, status := data.status,
            total_electrons := data.total_electrons,
            total_electrons_completed := data.total_electrons_completed,
            started_at := data.start_time, ended_at := data.end_time,
            directory := data.directory, runtime := data.runtime },
          ?_, rfl, rfl, rfl, rfl, rfl, rfl, rfl, rfl⟩
  simp [get_lattice_details, withSession, get_lattice_details_body, h]

/-- Witness for C4: evaluated on the concrete store holding `D1`. -/
theorem getSummary_found_copies_fields_witness :
    sampleStore.summaries "D1" = some sampleSummary ∧
    ∃ resp : LatticeDetailResponse,
      (get_lattice_details sampleStore "D1").1 = .ok resp ∧
      resp.dispatch_id = sampleSummary.dispatch_id ∧
      resp.status = sampleSummary.status ∧
      resp.total_electrons = sampleSummary.total_electrons ∧
      resp.total_electrons_completed = sampleSummary.total_electrons_completed ∧
      resp.started_at = sampleSummary.start_time ∧
      resp.ended_at = sampleSummary.end_time ∧
      resp.directory = sampleSummary.directory ∧
      resp.runtime = sampleSummary.runtime :=
  ⟨rfl, getSummary_found_copies_fields sampleStore "D1" sampleSummary rfl⟩

/-- C3: for every dispatch identifier absent from the backing store,
both handlers fail with the structured error
`{loc: ["path","dispatch_id"], msg: "Dispatch ID <id> does not exist",
type: null}` carrying exactly the requested identifier, raised as an
`HTTPException` with client-error status 400; neither returns a success
payload. -/
theorem notFound_structured_error (store : Store) (fs : FileSystem)
    (dispatch_id name : String)
    (h1 : store.summaries dispatch_id = none)
    (h2 : store.storageRecords dispatch_id = none) :
    (get_lattice_details store dispatch_id).1 =
      .error (.http
        { status_code := 400
          detail := [{ loc := ["path", "dispatch_id"]
                       msg := "Dispatch ID " ++ dispatch_id ++ " does not exist"
                       type := none }] }) ∧
    (get_lattice_files store fs dispatch_id name).1 =
      .error (.http
        { status_code := 400
          detail := [{ loc := ["path", "dispatch_id"]
                       msg := "Dispatch ID " ++ dispatch_id ++ " does not exist"
                       type := none }] }) := by
  constructor
  · simp [get_lattice_details, withSession, get_lattice_details_body, h1,
      dispatchNotFound]
  · simp [get_lattice_files, withSession, get_lattice_files_body, h2,
      dispatchNotFound]

/-- Witness for C3: evaluated on identifier `D2`, absent from the
concrete store. -/
theorem notFound_structured_error_witness :
    (sampleStore.summaries "D2" = none ∧
     sampleStore.storageRecords "D2" = none) ∧
    (get_lattice_details sampleStore "D2").1 =
      .error (.http
        { status_code := 400
          detail := [{ loc := ["path", "dispatch_id"]
                       msg := "Dispatch ID D2 does not exist"
                       type := none }] }) ∧
    (get_lattice_files sampleStore sampleFS "D2" "result").1 =
      .error (.http
        { status_code := 400
          detail := [{ loc := ["path", "dispatch_id"]
                       msg := "Dispatch ID D2 does not exist"
                       type := none }] }) :=
  ⟨⟨by decide, by decide⟩,
   notFound_structured_error sampleStore sampleFS "D2" "result"
     (by decide) (by decide)⟩

/-- C2: for every artifact kind outside the recognized dispatch table,
`get_lattice_files` on a found storage record succeeds with
`{data: null}`; it never produces an error for an unrecognized kind. -/
theorem unrecognized_kind_null_data (store : Store) (fs : FileSystem)
    (dispatch_id name : String) (rec : LatticeStorageRecord)
    (hrec : store.storageRecords dispatch_id = some rec)
    (hname : name ∉ recognizedKinds) :
    (get_lattice_files store fs dispatch_id name).1 =
      .ok (.fileResp { data := none }) := by
  simp only [recognizedKinds, List.mem_cons, List.not_mem_nil, or_false,
    not_or] at hname
  obtain ⟨n1, n2, n3, n4, n5, n6, n7, n8⟩ := hname
  simp [get_lattice_files, withSession, get_lattice_files_body, hrec,
    n1, n2, n3, n4, n5, n6, n7, n8]

/-- Witness for C2: evaluated on the sentinel kind `bogus`. -/
theorem unrecognized_kind_null_data_witness :
    (sampleStore.storageRecords "D1" = some sampleRecord ∧
     "bogus" ∉ recognizedKinds) ∧
    (get_lattice_files sampleStore sampleFS "D1" "bogus").1 =
      .ok (.fileResp { data := none }) :=
  ⟨⟨rfl, by decide⟩,
   unrecognized_kind_null_data sampleStore sampleFS "D1" "bogus" sampleRecord
     rfl (by decide)⟩

/-- C9: for every found storage record and every artifact kind outside
the dispatch table, `get_lattice_files` performs no file read at all —
its trace contains no read event — before returning the `{data: null}`
success; in particular it succeeds on a filesystem with no files. -/
theorem unrecognized_kind_no_reads (store : Store) (fs : FileSystem)
    (dispatch_id name : String) (rec : LatticeStorageRecord)
    (hrec : store.storageRecords dispatch_id = some rec)
    (hname : name ∉ recognizedKinds) :
    readsOf (get_lattice_files store fs dispatch_id name).2 = [] ∧
    (get_lattice_files store fs dispatch_id name).1 =
      .ok (.fileResp { data := none }) := by
  simp only [recognizedKinds, List.mem_cons, List.not_mem_nil, or_false,
    not_or] at hname
  obtain ⟨n1, n2, n3, n4, n5, n6, n7, n8⟩ := hname
  constructor
  · simp [get_lattice_files, withSession, get_lattice_files_body, hrec,
      n1, n2, n3, n4, n5, n6, n7, n8, readsOf, Event.isRead]
  · simp [get_lattice_files, withSession, get_lattice_files_body, hrec,
      n1, n2, n3, n4, n5, n6, n7, n8]

/-- Witness for C9: kind `bogus` on the empty filesystem reads nothing
and succeeds. -/
theorem unrecognized_kind_no_reads_witness :
    (sampleStore.storageRecords "D1" = some sampleRecord ∧
     "bogus" ∉ recognizedKinds) ∧
    readsOf (get_lattice_files sampleStore emptyFS "D1" "bogus").2 = [] ∧
    (get_lattice_files sampleStore emptyFS "D1" "bogus").1 =
      .ok (.fileResp { data := none }) :=
  ⟨⟨rfl, by decide⟩,
   unrecognized_kind_no_reads sampleStore emptyFS "D1" "bogus" sampleRecord
     rfl (by decide)⟩

/-- C1: for every recognized artifact kind, `get_lattice_files` on a
found storage record reads exactly the file named by that kind's row of
the dispatch table — resolved against the record's directory — and no
other file, using a text read for `function_string` and `error` and an
object (pickle) read for all other kinds. -/
theorem dispatch_table_reads_exact (store : Store) (fs : FileSystem)
    (dispatch_id : String) (rec : LatticeStorageRecord)
    (hrec : store.storageRecords dispatch_id = some rec) :
    readsOf (get_lattice_files store fs dispatch_id "result").2 =
      [.readObjectEv (rec.directory ++ "/" ++ rec.results_filename)] ∧
    readsOf (get_lattice_files store fs dispatch_id "inputs").2 =
      [.readObjectEv (rec.directory ++ "/" ++ rec.inputs_filename)] ∧
    readsOf (get_lattice_files store fs dispatch_id "function_string").2 =
      [.readTextEv (rec.directory ++ "/" ++ rec.function_string_filename)] ∧
    readsOf (get_lattice_files store fs dispatch_id "executor").2 =
      [.readObjectEv (rec.directory ++ "/" ++ rec.executor_data_filename)] ∧
    readsOf (get_lattice_files store fs dispatch_id "workflow_executor").2 =
      [.readObjectEv (rec.directory ++ "/" ++ rec.workflow_executor_data_filename)] ∧
    readsOf (get_lattice_files store fs dispatch_id "error").2 =
      [.readTextEv (rec.directory ++ "/" ++ rec.error_filename)] ∧
    readsOf (get_lattice_files store fs dispatch_id "function").2 =
      [.readObjectEv (rec.directory ++ "/" ++ rec.function_filename)] ∧
    readsOf (get_lattice_files store fs dispatch_id "transport_graph").2 =
      [.readObjectEv (rec.directory ++ "/" ++ rec.transport_graph_filename)] := by
  refine ⟨?_, ?_, ?_, ?_, ?_, ?_, ?_, ?_⟩ <;>
    simp [get_lattice_files, withSession, get_lattice_files_body, hrec,
      readsOf, bindRead_trace, read_from_pickle_trace, read_from_text_trace,
      FileHandler.resolve, Event.isRead]

/-- Witness for C1: the eight reads evaluated on the concrete fixture. -/
theorem dispatch_table_reads_exact_witness :
    sampleStore.storageRecords "D1" = some sampleRecord ∧
    readsOf (get_lattice_files sampleStore sampleFS "D1" "result").2 =
      [.readObjectEv "/store/D1/result.pkl"] ∧
    readsOf (get_lattice_files sampleStore sampleFS "D1" "function_string").2 =
      [.readTextEv "/store/D1/function_string.txt"] :=
  ⟨rfl,
   (dispatch_table_reads_exact sampleStore sampleFS "D1" sampleRecord rfl).1,
   (dispatch_table_reads_exact sampleStore sampleFS "D1" sampleRecord rfl).2.2.1⟩

/-- Counterexample to C5 as stated: with the `result` artifact file
decoding to the integer 5, `get_lattice_files` returns
`{data: "5"}` — the `str()` rendering — not the decoded value 5 itself,
unlike the other simple kinds. -/
theorem result_kind_not_raw_value :
    (get_lattice_files sampleStore sampleFS "D1" "result").1 =
      .ok (.fileResp { data := some (.pystr "5") }) ∧
    (get_lattice_files sampleStore sampleFS "D1" "result").1 ≠
      .ok (.fileResp { data := some (.pyint 5) }) ∧
    sampleFS "/store/D1/result.pkl" = some (.obj (.pyint 5)) ∧
    (get_lattice_files sampleStore sampleFS "D1" "inputs").1 =
      .ok (.fileResp { data := some (.pystr "args") }) := by
  have h5 : (get_lattice_files sampleStore sampleFS "D1" "result").1 =
      .ok (.fileResp { data := some (.pystr "5") }) := rfl
  refine ⟨h5, ?_, rfl, rfl⟩
  rw [h5]
  simp

/-- C5 amended: for kind `result` on a found storage record whose
results file decodes to `v`, `get_lattice_files` returns
`{data: str(v)}` — the Python string rendering of the decoded value —
rather than the decoded value itself as for the other simple kinds. -/
theorem result_kind_returns_str (store : Store) (fs : FileSystem)
    (dispatch_id : String) (rec : LatticeStorageRecord) (v : PyObj)
    (hrec : store.storageRecords dispatch_id = some rec)
    (hfile : fs (rec.directory ++ "/" ++ rec.results_filename) =
      some (.obj v)) :
    (get_lattice_files store fs dispatch_id "result").1 =
      .ok (.fileResp { data := some (.pystr (pyStr v)) }) := by
  simp [get_lattice_files, withSession, get_lattice_files_body, hrec,
    FileHandler.read_from_pickle, FileHandler.resolve, hfile, bindRead]

/-- Witness for the amended C5: the fixture's results file decodes to
the integer 5 and the response carries the string "5". -/
theorem result_kind_returns_str_witness :
    (sampleStore.storageRecords "D1" = some sampleRecord ∧
     sampleFS "/store/D1/result.pkl" = some (.obj (.pyint 5))) ∧
    (get_lattice_files sampleStore sampleFS "D1" "result").1 =
      .ok (.fileResp { data := some (.pystr (pyStr (.pyint 5))) }) :=
  ⟨⟨rfl, by decide⟩,
   result_kind_returns_str sampleStore sampleFS "D1" sampleRecord
     (.pyint 5) rfl (by decide)⟩

/-- C6: on a found storage record, kind `executor` yields
`{executor_name: the record's executor name, executor_details: the
object decoded from the executor data file}`, and kind
`workflow_executor` the analogous pair from the workflow-executor name
and data file. -/
theorem executor_kinds_name_and_details (store : Store) (fs : FileSystem)
    (dispatch_id : String) (rec : LatticeStorageRecord) (v w : PyObj)
    (hrec : store.storageRecords dispatch_id = some rec)
    (hexec : fs (rec.directory ++ "/" ++ rec.executor_data_filename) =
      some (.obj v))
    (hwexec : fs (rec.directory ++ "/" ++ rec.workflow_executor_data_filename) =
      some (.obj w)) :
    (get_lattice_files store fs dispatch_id "executor").1 =
      .ok (.executorResp
        { executor_name := rec.executor, executor_details := v }) ∧
    (get_lattice_files store fs dispatch_id "workflow_executor").1 =
      .ok (.workflowExecutorResp
        { workflow_executor_name := rec.workflow_executor
          workflow_executor_details := w }) := by
  constructor <;>
    simp [get_lattice_files, withSession, get_lattice_files_body, hrec,
      FileHandler.read_from_pickle, FileHandler.resolve, hexec, hwexec,
      bindRead]

/-- Witness for C6: evaluated on the fixture, whose executor name is
`dask` and workflow executor name is `local`. -/
theorem executor_kinds_name_and_details_witness :
    (sampleStore.storageRecords "D1" = some sampleRecord ∧
     sampleFS "/store/D1/executor_data.pkl" = some (.obj (.pystr "exec-cfg")) ∧
     sampleFS "/store/D1/workflow_executor_data.pkl" =
       some (.obj (.pystr "wexec-cfg"))) ∧
    (get_lattice_files sampleStore sampleFS "D1" "executor").1 =
      .ok (.executorResp
        { executor_name := "dask", executor_details := .pystr "exec-cfg" }) ∧
    (get_lattice_files sampleStore sampleFS "D1" "workflow_executor").1 =
      .ok (.workflowExecutorResp
        { workflow_executor_name := "local"
          workflow_executor_details := .pystr "wexec-cfg" }) :=
  ⟨⟨rfl, by decide, by decide⟩,
   executor_kinds_name_and_details sampleStore sampleFS "D1" sampleRecord
     (.pystr "exec-cfg") (.pystr "wexec-cfg") rfl (by decide) (by decide)⟩

/-- C7: when the storage record exists but the requested artifact file
is absent on disk, `get_lattice_files` fails with a `missingFile` error
(for each of the eight recognized kinds), and that outcome is a
different constructor of `RouteError` from every raised
`HTTPException` — in particular from the not-found error — so the two
failures are never conflated. -/
theorem missing_file_distinct_from_notFound (store : Store)
    (fs : FileSystem) (dispatch_id : String) (rec : LatticeStorageRecord)
    (hrec : store.storageRecords dispatch_id = some rec) :
    (fs (rec.directory ++ "/" ++ rec.results_filename) = none →
      (get_lattice_files store fs dispatch_id "result").1 =
        .error (.file .missingFile)) ∧
    (fs (rec.directory ++ "/" ++ rec.inputs_filename) = none →
      (get_lattice_files store fs dispatch_id "inputs").1 =
        .error (.file .missingFile)) ∧
    (fs (rec.directory ++ "/" ++ rec.function_string_filename) = none →
      (get_lattice_files store fs dispatch_id "function_string").1 =
        .error (.file .missingFile)) ∧
    (fs (rec.directory ++ "/" ++ rec.executor_data_filename) = none →
      (get_lattice_files store fs dispatch_id "executor").1 =
        .error (.file .missingFile)) ∧
    (fs (rec.directory ++ "/" ++ rec.workflow_executor_data_filename) = none →
      (get_lattice_files store fs dispatch_id "workflow_executor").1 =
        .error (.file .missingFile)) ∧
    (fs (rec.directory ++ "/" ++ rec.error_filename) = none →
      (get_lattice_files store fs dispatch_id "error").1 =
        .error (.file .missingFile)) ∧
    (fs (rec.directory ++ "/" ++ rec.function_filename) = none →
      (get_lattice_files store fs dispatch_id "function").1 =
        .error (.file .missingFile)) ∧
    (fs (rec.directory ++ "/" ++ rec.transport_graph_filename) = none →
      (get_lattice_files store fs dispatch_id "transport_graph").1 =
        .error (.file .missingFile)) ∧
    (∀ e : HTTPExceptionModel,
      (RouteError.file .missingFile : RouteError) ≠ .http e) := by
  refine ⟨?_, ?_, ?_, ?_, ?_, ?_, ?_, ?_, fun e h => by cases h⟩ <;>
    intro hmiss <;>
    simp [get_lattice_files, withSession, get_lattice_files_body, hrec,
      FileHandler.read_from_pickle, FileHandler.read_from_text,
      FileHandler.resolve, hmiss, bindRead]

/-- Witness for C7: on the empty filesystem, the record for `D1` is
found but the result artifact read fails with `missingFile`, while the
unknown-dispatch failure is an `HTTPException`. -/
theorem missing_file_distinct_from_notFound_witness :
    (sampleStore.storageRecords "D1" = some sampleRecord ∧
     emptyFS "/store/D1/result.pkl" = none) ∧
    (get_lattice_files sampleStore emptyFS "D1" "result").1 =
      .error (.file .missingFile) :=
  ⟨⟨rfl, rfl⟩,
   (missing_file_distinct_from_notFound sampleStore emptyFS "D1"
     sampleRecord rfl).1 rfl⟩

/-- The body of the `with` block of `get_lattice_files` emits only
file-read events: it never touches the session lifecycle. -/
theorem get_lattice_files_body_only_reads (store : Store)
    (fs : FileSystem) (dispatch_id name : String) :
    ((get_lattice_files_body store fs dispatch_id name).2).all
      Event.isRead = true := by
  unfold get_lattice_files_body
  cases store.storageRecords dispatch_id with
  | none => rfl
  | some rec =>
    dsimp only
    split_ifs <;>
      simp [bindRead_trace, read_from_pickle_trace, read_from_text_trace,
        Event.isRead]

/-- The body of the `with` block of `get_lattice_details` emits no
events at all. -/
theorem get_lattice_details_body_no_events (store : Store)
    (dispatch_id : String) :
    (get_lattice_details_body store dispatch_id).2 = [] := by
  unfold get_lattice_details_body
  cases store.summaries dispatch_id <;> rfl

/-- C8: on every request — success, not-found error, or file failure —
the session acquired at the start is released at the end: the trace of
`get_lattice_details` is exactly acquire-then-release, and the trace of
`get_lattice_files` is acquire, then only file reads, then release.
No exit path leaves the session held. -/
theorem session_released_every_path (store : Store) (fs : FileSystem)
    (dispatch_id name : String) :
    (get_lattice_details store dispatch_id).2 =
      [.sessionAcquire, .sessionRelease] ∧
    ∃ mid : List Event,
      (get_lattice_files store fs dispatch_id name).2 =
        .sessionAcquire :: mid ++ [.sessionRelease] ∧
      mid.all Event.isRead = true := by
  constructor
  · show Event.sessionAcquire ::
      (get_lattice_details_body store dispatch_id).2 ++
      [Event.sessionRelease] = _
    rw [get_lattice_details_body_no_events]
    rfl
  · exact ⟨(get_lattice_files_body store fs dispatch_id name).2, rfl,
      get_lattice_files_body_only_reads store fs dispatch_id name⟩

end Covalent
